import Mathlib

/-!
Verification of the node-red-ads-eventlogger repository.

This file gives a shallow embedding of the notification decoder
(src/eventlogger-constants.js, src/ads-eventlogger-subscribe.js) and of the
subscription broker / connection supervisor
(src/ads-eventlogger-connection.js), and proves the specified properties
about them.

Buffers are modelled as lists of natural numbers (byte values); JavaScript
number arithmetic (IEEE-754 binary64) is modelled exactly where precision
matters, via a round-to-nearest-even function on rationals.
-/

set_option maxRecDepth 100000

namespace AdsEventLogger

/-! ## Buffer primitives (Node.js Buffer reads, little-endian) -/

/-- Byte at index `i` of a buffer (0 when out of range; every modelled
call site is guarded so the default is never observable). -/
def byteAt (buf : List Nat) (i : Nat) : Nat := buf.getD i 0

/-- Model of `buffer.readUInt8(off)`. -/
def readUInt8 (buf : List Nat) (off : Nat) : Nat := byteAt buf off

/-- Model of `buffer.readUInt16LE(off)`. -/
def readUInt16LE (buf : List Nat) (off : Nat) : Nat :=
  byteAt buf off + 256 * byteAt buf (off + 1)

/-- Model of `buffer.readUInt32LE(off)`. -/
def readUInt32LE (buf : List Nat) (off : Nat) : Nat :=
  byteAt buf off + 256 * byteAt buf (off + 1) + 65536 * byteAt buf (off + 2)
    + 16777216 * byteAt buf (off + 3)

/-- Hexadecimal digit character (lowercase, as JavaScript `toString(16)`
and Buffer `toString("hex")` render). -/
def hexDigitChar (n : Nat) : Char :=
  if n < 10 then Char.ofNat (48 + n) else Char.ofNat (87 + n)

/-- Fixed-width lowercase hexadecimal rendering of `n` with `w` digits
(leading zeros).  For `n < 16 ^ w` this coincides with JavaScript
`n.toString(16).padStart(w, "0")`. -/
def natToHexPad (n w : Nat) : String :=
  String.mk ((List.range w).map (fun i => hexDigitChar (n / 16 ^ (w - 1 - i) % 16)))

/-- Model of `Buffer.prototype.toString("hex")` on a byte list. -/
def bytesToHex (bs : List Nat) : String :=
  String.join (bs.map (fun b => natToHexPad b 2))

/-! ## BinaryCodec: parseGuid (eventlogger-constants.js lines 84-94) -/

/-- Model of `parseGuid(buffer, offset)`: mixed-endian GUID rendering.
Returns `none` when fewer than 16 bytes are available from `offset`. -/
def parseGuid (buf : List Nat) (off : Nat) : Option String :=
  if buf.length < off + 16 then none
  else
    let data1 := natToHexPad (readUInt32LE buf off) 8
    let data2 := natToHexPad (readUInt16LE buf (off + 4)) 4
    let data3 := natToHexPad (readUInt16LE buf (off + 6)) 4
    let data4High := bytesToHex ((buf.drop (off + 8)).take 2)
    let data4Low := bytesToHex ((buf.drop (off + 10)).take 6)
    some (data1 ++ "-" ++ data2 ++ "-" ++ data3 ++ "-" ++ data4High ++ "-" ++ data4Low)

/-! ## IEEE-754 binary64 rounding model

JavaScript numbers are IEEE-754 binary64 values; every arithmetic
operation rounds its exact rational result to nearest, ties to even,
with a 53-bit significand.  All quantities arising in `parseFileTime`
are far below the overflow threshold and far above the subnormal range,
so rounding with an unbounded exponent range is an exact model of the
JavaScript arithmetic.

Exact rationals are represented as unnormalized numerator/denominator
pairs of integers (denominator kept positive by construction); all
operations below reduce to integer arithmetic, so concrete instances
evaluate by `decide`. -/

/-- Exact rational value: numerator and (positive) denominator.
Values are never normalized; comparisons cross-multiply. -/
structure Frac where
  num : ℤ
  den : ℤ
deriving Repr, DecidableEq

/-- Sum of two exact rationals. -/
def fracAdd (x y : Frac) : Frac := ⟨x.num * y.den + y.num * x.den, x.den * y.den⟩

/-- Difference of two exact rationals. -/
def fracSub (x y : Frac) : Frac := ⟨x.num * y.den - y.num * x.den, x.den * y.den⟩

/-- Product of two exact rationals. -/
def fracMul (x y : Frac) : Frac := ⟨x.num * y.num, x.den * y.den⟩

/-- Quotient of two exact rationals (second nonzero; the sign moves to
the numerator so the denominator stays positive). -/
def fracDiv (x y : Frac) : Frac :=
  if 0 ≤ y.num then ⟨x.num * y.den, x.den * y.num⟩
  else ⟨-(x.num * y.den), x.den * -y.num⟩

/-- Negation of an exact rational. -/
def fracNeg (x : Frac) : Frac := ⟨-x.num, x.den⟩

/-- Strict order on exact rationals (positive denominators assumed). -/
def fracLt (x y : Frac) : Bool := decide (x.num * y.den < y.num * x.den)

/-- Equality test on exact rationals (positive denominators assumed). -/
def fracEq (x y : Frac) : Bool := decide (x.num * y.den = y.num * x.den)

/-- Floor of an exact rational (positive denominator assumed). -/
def fracFloor (x : Frac) : ℤ := Int.fdiv x.num x.den

/-- Value of two raised to an integer power, as an exact rational. -/
def fracPow2 (k : ℤ) : Frac :=
  if 0 ≤ k then ⟨2 ^ k.toNat, 1⟩ else ⟨1, 2 ^ (-k).toNat⟩

/-- Multiplication of an exact rational by a power of two. -/
def fracMulPow2 (x : Frac) (k : ℤ) : Frac :=
  if 0 ≤ k then ⟨x.num * 2 ^ k.toNat, x.den⟩ else ⟨x.num, x.den * 2 ^ (-k).toNat⟩

/-- Floor of the base-2 logarithm of a natural number, computed with
structural fuel (the value itself suffices as fuel). -/
def natLog2Fuel : Nat → Nat → Nat
  | 0, _ => 0
  | fuel + 1, n => if n < 2 then 0 else natLog2Fuel fuel (n / 2) + 1

/-- Floor of the base-2 logarithm of a natural number. -/
def natLog2 (n : Nat) : Nat := natLog2Fuel n n

/-- Floor of the base-2 logarithm of a positive exact rational.  With
`a` and `b` the bit lengths of numerator and denominator, the result is
either `a - b - 1` or `a - b`; one comparison picks the right one. -/
def fracLog2Floor (x : Frac) : ℤ :=
  let a : ℤ := natLog2 x.num.toNat
  let b : ℤ := natLog2 x.den.toNat
  if fracLt x (fracPow2 (a - b)) then a - b - 1 else a - b

/-- Round a positive exact rational to the nearest binary64 value
(53-bit significand, ties to even, unbounded exponent range):
scale into `[2 ^ 52, 2 ^ 53)`, round the scaled value to an integer
(half to even), and scale back. -/
def roundPos (x : Frac) : Frac :=
  let e : ℤ := fracLog2Floor x - 52
  let scaled : Frac := fracMulPow2 x (-e)
  let n : ℤ := fracFloor scaled
  let frac : Frac := fracSub scaled ⟨n, 1⟩
  let m : ℤ :=
    if fracLt frac ⟨1, 2⟩ then n
    else if fracLt ⟨1, 2⟩ frac then n + 1
    else if n % 2 = 0 then n else n + 1
  fracMulPow2 ⟨m, 1⟩ e

/-- Round an exact rational to the nearest binary64 value
(round half to even). -/
def round64 (x : Frac) : Frac :=
  if x.num < 0 then fracNeg (roundPos (fracNeg x))
  else if x.num = 0 then ⟨0, 1⟩
  else roundPos x

/-- JavaScript double addition. -/
def jsAdd (a b : Frac) : Frac := round64 (fracAdd a b)

/-- JavaScript double subtraction. -/
def jsSub (a b : Frac) : Frac := round64 (fracSub a b)

/-- JavaScript double multiplication. -/
def jsMul (a b : Frac) : Frac := round64 (fracMul a b)

/-- JavaScript double division. -/
def jsDiv (a b : Frac) : Frac := round64 (fracDiv a b)

/-- Truncation toward zero, as `new Date(ms)` clips its argument
(ECMAScript TimeClip / ToIntegerOrInfinity). -/
def jsTrunc (q : Frac) : ℤ :=
  if 0 ≤ q.num then fracFloor q else -fracFloor (fracNeg q)

/-! ## BinaryCodec: parseFileTime (eventlogger-constants.js lines 101-114)

The returned value models the millisecond value of the `Date` object the
JavaScript code constructs (`Date.prototype.getTime`). -/

/-- Model of `parseFileTime(buffer, offset)`: Windows FILETIME (100 ns
ticks since 1601-01-01, stored as two 32-bit little-endian words) to
milliseconds since the Unix epoch, computed in IEEE-754 binary64
arithmetic exactly as the JavaScript source does
(`(high * 0x100000000 + low) / 10000 - 11644473600000`).  Returns
`none` when fewer than 8 bytes are available or both words are zero. -/
def parseFileTime (buf : List Nat) (off : Nat) : Option ℤ :=
  if buf.length < off + 8 then none
  else
    let low := readUInt32LE buf off
    let high := readUInt32LE buf (off + 4)
    if low = 0 ∧ high = 0 then none
    else
      let fileTimeMs := jsDiv (jsAdd (jsMul ⟨(high : ℤ), 1⟩ ⟨4294967296, 1⟩) ⟨(low : ℤ), 1⟩) ⟨10000, 1⟩
      let unixMs := jsSub fileTimeMs ⟨11644473600000, 1⟩
      some (jsTrunc unixMs)

/-! ## EventEntryDecoder (ads-eventlogger-subscribe.js lines 78-170) -/

/-- Model of the `SEVERITY_STR` table (eventlogger-constants.js lines
48-54): severity names indexed by the `SEVERITY` enum values 0-4. -/
def SEVERITY_STR (n : Nat) : Option String :=
  ["Verbose", "Info", "Warning", "Error", "Critical"].get? n

/-- Decoded event record, one field per property the source stores on
`entry` in `parseEventEntry`.  Timestamps are the millisecond values of
the `Date` objects (`none` models the `null` the source returns for
absent timestamps, and `eventClass` keeps `parseGuid`'s nullability). -/
structure ParsedEvent where
  version : Nat
  messageType : Nat
  payloadSize : Nat
  eventClass : Option String
  eventId : Nat
  severityRaw : Nat
  severityLevel : Nat
  severity : String
  eventKind : Nat
  isAlarm : Bool
  alarmState : String
  alarmStateValue : Nat
  timeRaised : Option ℤ
  timeCleared : Option ℤ
  timeConfirmed : Option ℤ
  sourceName : String
  message : String
deriving Repr, DecidableEq

/-- String built from a list of byte values (each below 0x80 at every
call site, so Node's "ascii" decoding is the identity on them). -/
def stringOfBytes (bs : List Nat) : String :=
  String.mk (bs.map Char.ofNat)

/-- Model of the scanning loop of `findAsciiStrings`: walk the bytes
with the current index `i` and the start of the current printable run
(`none` mirrors `start === -1`); a run is emitted when it ends (or at
the end of the buffer) and has at least 3 bytes. -/
def findAsciiAux : List Nat → Nat → Option (Nat × List Nat) → List (Nat × String)
  | [], _, cur =>
    match cur with
    | some (st, acc) => if 3 ≤ acc.length then [(st, stringOfBytes acc)] else []
    | none => []
  | b :: rest, i, cur =>
    if 0x20 ≤ b ∧ b < 0x7f then
      match cur with
      | none => findAsciiAux rest (i + 1) (some (i, [b]))
      | some (st, acc) => findAsciiAux rest (i + 1) (some (st, acc ++ [b]))
    else
      match cur with
      | some (st, acc) =>
        if 3 ≤ acc.length then (st, stringOfBytes acc) :: findAsciiAux rest (i + 1) none
        else findAsciiAux rest (i + 1) none
      | none => findAsciiAux rest (i + 1) none

/-- Model of `findAsciiStrings(buf, startOffset)` (ads-eventlogger-
subscribe.js lines 153-170): printable-ASCII runs of length at least 3,
in buffer order from `startOffset`, each with its starting offset. -/
def findAsciiStrings (buf : List Nat) (startOffset : Nat) : List (Nat × String) :=
  findAsciiAux (buf.drop startOffset) startOffset none

/-- Model of `parseEventEntry(data)` (ads-eventlogger-subscribe.js lines
78-148).  Returns `none` (the source's `null`, after the "too short"
warning) for buffers shorter than `MIN_EVENT_SIZE = 84`, otherwise the
decoded record. -/
def parseEventEntry (data : List Nat) : Option ParsedEvent :=
  if data.length < 84 then none
  else
    let severityRaw := readUInt8 data 36
    let eventKind := readUInt32LE data 40
    let raisedFlag := readUInt8 data 52
    let strings := if 128 < data.length then findAsciiStrings data 128 else []
    some {
      version := readUInt32LE data 0
      messageType := readUInt16LE data 4
      payloadSize := readUInt32LE data 8
      eventClass := parseGuid data 12
      eventId := readUInt32LE data 28
      severityRaw := severityRaw
      severityLevel := if severityRaw ≤ 4 then severityRaw else 0
      severity :=
        if severityRaw ≤ 4 then
          (SEVERITY_STR severityRaw).getD ("Unknown(" ++ toString severityRaw ++ ")")
        else "Verbose"
      eventKind := eventKind
      isAlarm := decide (eventKind = 2)
      alarmState := if raisedFlag = 1 then "Raised" else "Cleared"
      alarmStateValue := if raisedFlag = 1 then 1 else 0
      timeRaised := parseFileTime data 60
      timeCleared := parseFileTime data 68
      timeConfirmed := parseFileTime data 76
      sourceName := ((strings.get? 0).map Prod.snd).getD ""
      message := ((strings.get? 1).map Prod.snd).getD ""
    }

/-- Model of `sendEvent(entry)` (ads-eventlogger-subscribe.js lines
177-199): the message sent on the node's output, or `none` when the
severity filter drops the entry. -/
def sendEvent (minSeverity : Nat) (entry : ParsedEvent) : Option ParsedEvent :=
  if entry.severityLevel < minSeverity then none else some entry

/-- Outcome of delivering one raw notification buffer to a subscribe
node: whether `parseEventEntry` was invoked, and the message fanned out
to the node's output (if any). -/
structure NotifyOutcome where
  decodeAttempted : Bool
  fannedOut : Option ParsedEvent
deriving Repr, DecidableEq

/-- Model of `onEventData(data)` (ads-eventlogger-subscribe.js lines
238-252): empty buffers are ignored, buffers of at most
`HEARTBEAT_SIZE = 16` bytes are skipped as heartbeats, anything longer
is decoded and, when the decode succeeds, passed to `sendEvent`. -/
def onEventData (minSeverity : Nat) (buf : List Nat) : NotifyOutcome :=
  if buf.length = 0 then ⟨false, none⟩
  else if buf.length ≤ 16 then ⟨false, none⟩
  else
    match parseEventEntry buf with
    | none => ⟨true, none⟩
    | some entry => ⟨true, sendEvent minSeverity entry⟩

/-! ## SubscriptionBroker (ads-eventlogger-connection.js lines 219-297)

JavaScript is single-threaded with run-to-completion semantics: the code
between two `await` expressions executes atomically, and concurrent
`async` calls interleave only at those suspension points.  Each state
below is the config node's relevant mutable fields, and each step
function is one maximal synchronous segment of the source.

`addSubscriberStep` is the synchronous prefix of `addSubscriber()`:
increment `_subscriberCount`; return if `_subscription` is set; return
if not connected; then the synchronous prefix of `_subscribe()`: return
if `_subscription` is set; if `_subscribing` is set, the caller awaits
that same pending promise (no state change); otherwise `subscribeRaw`
is invoked and `_subscribing` is set, all before any suspension.
`subscribeResolveOk`/`subscribeResolveErr` are the continuations that
run when the transport resolves or rejects the `subscribeRaw` promise
(`_subscription` is stored on success and cleared on failure, and the
`finally` block clears `_subscribing` in both cases). -/

/-- Mutable broker state of the connection config node:
`_subscriberCount` (a JavaScript number, hence `ℤ`), whether
`_subscription` is non-null, whether `_subscribing` is non-null,
whether the client reports connected, and instrumentation counting the
transport calls actually issued (`subscribeRaw`, `unsubscribe`). -/
structure BrokerState where
  subscriberCount : ℤ
  subscription : Bool
  subscribing : Bool
  connected : Bool
  subscribeRawCalls : Nat
  unsubscribeCalls : Nat
deriving Repr, DecidableEq

/-- Synchronous segment of one `addSubscriber()` call, including the
synchronous prefix of `_subscribe()` (see section comment). -/
def addSubscriberStep (s : BrokerState) : BrokerState :=
  let s := { s with subscriberCount := s.subscriberCount + 1 }
  if s.subscription then s
  else if !s.connected then s
  else if s.subscription then s
  else if s.subscribing then s
  else { s with subscribing := true, subscribeRawCalls := s.subscribeRawCalls + 1 }

/-- Continuation after the transport resolves `subscribeRaw`
successfully: the handle is stored and `_subscribing` cleared. -/
def subscribeResolveOk (s : BrokerState) : BrokerState :=
  { s with subscription := true, subscribing := false }

/-- Continuation after the transport rejects `subscribeRaw`: the catch
block clears `_subscription` and the finally block clears
`_subscribing`. -/
def subscribeResolveErr (s : BrokerState) : BrokerState :=
  { s with subscription := false, subscribing := false }

/-- Model of `_unsubscribe()` (lines 288-297) given whether the
transport's `unsubscribe()` call fails: no-op when no subscription
exists; otherwise the transport call is issued, a failure is caught and
logged (second component `true`), and the local handle is cleared
afterwards in either case. -/
def unsubscribeStep (transportFails : Bool) (s : BrokerState) : BrokerState × Bool :=
  if !s.subscription then (s, false)
  else
    ({ s with unsubscribeCalls := s.unsubscribeCalls + 1, subscription := false },
      transportFails)

/-- Model of one `removeSubscriber()` call (lines 239-245) given whether
a transport `unsubscribe()` would fail: `_subscriberCount` is set to
`max(0, count - 1)`, and when it reaches 0 with a subscription present,
`_unsubscribe()` runs.  The second component records whether a teardown
failure was logged; no failure is ever propagated (the function is
total). -/
def removeSubscriberStep (transportFails : Bool) (s : BrokerState) : BrokerState × Bool :=
  let s := { s with subscriberCount := max 0 (s.subscriberCount - 1) }
  if s.subscriberCount = 0 ∧ s.subscription then unsubscribeStep transportFails s
  else (s, false)

/-! ## ConnectionSupervisor state-change handler
(ads-eventlogger-connection.js lines 79-97) -/

/-- Connection-state bookkeeping of the config node: the recorded
`connected` flag and the `firstConnectedEventSent` flag. -/
structure ConnFlags where
  connected : Bool
  firstSent : Bool
deriving Repr, DecidableEq

/-- Model of `onConnectedStateChange(connected)` restricted to its
notification logic: returns the new flags and whether the "connected"
event was emitted to observers (`this.connected !== connected ||
!this.firstConnectedEventSent`). -/
def onConnectedStateChange (sig : Bool) (s : ConnFlags) : ConnFlags × Bool :=
  (⟨sig, true⟩, (s.connected != sig) || !s.firstSent)

/-- Number of state-change notifications emitted while processing a
sequence of connected/disconnected signals from the transport. -/
def emittedCount (s : ConnFlags) : List Bool → Nat
  | [] => 0
  | sig :: rest =>
    let r := onConnectedStateChange sig s
    (if r.2 then 1 else 0) + emittedCount r.1 rest

/-- Number of actual state changes in a signal sequence: positions whose
signal differs from the previous signal. -/
def adjacentChanges : List Bool → Nat
  | a :: b :: rest => (if a != b then 1 else 0) + adjacentChanges (b :: rest)
  | _ => 0

/-- Initial flags of a freshly constructed config node
(`connected = false`, `firstConnectedEventSent = false`). -/
def initialConnFlags : ConnFlags := ⟨false, false⟩

/-- Decoded event produced from an 84-byte all-zero buffer (used as a
concrete instance in witnesses). -/
def sampleEvent : ParsedEvent :=
  ⟨0, 0, 0, some "00000000-0000-0000-0000-000000000000", 0, 0, 0, "Verbose",
    0, false, "Cleared", 0, none, none, none, "", ""⟩

/-! ## Helper lemmas -/

theorem parseEventEntry_none_iff (buf : List Nat) :
    parseEventEntry buf = none ↔ buf.length < 84 := by
  unfold parseEventEntry
  split
  · simp [*]
  · simp [*]

theorem parseEventEntry_length {buf : List Nat} {e : ParsedEvent}
    (h : parseEventEntry buf = some e) : 84 ≤ buf.length := by
  by_contra hlt
  rw [(parseEventEntry_none_iff buf).mpr (by omega)] at h
  cases h

theorem readUInt32LE_eq_zero_iff (buf : List Nat) (a : Nat) :
    readUInt32LE buf a = 0 ↔
      byteAt buf a = 0 ∧ byteAt buf (a + 1) = 0 ∧ byteAt buf (a + 2) = 0 ∧
        byteAt buf (a + 3) = 0 := by
  unfold readUInt32LE
  omega

theorem parseFileTime_of_le {buf : List Nat} {off : Nat} (h : off + 8 ≤ buf.length) :
    parseFileTime buf off =
      (if readUInt32LE buf off = 0 ∧ readUInt32LE buf (off + 4) = 0 then none
       else some (jsTrunc (jsSub
         (jsDiv (jsAdd (jsMul ⟨(readUInt32LE buf (off + 4) : ℤ), 1⟩ ⟨4294967296, 1⟩)
           ⟨(readUInt32LE buf off : ℤ), 1⟩) ⟨10000, 1⟩) ⟨11644473600000, 1⟩))) := by
  unfold parseFileTime
  rw [if_neg (by omega)]

theorem parseEventEntry_of_le {buf : List Nat} (h : 84 ≤ buf.length) :
    parseEventEntry buf = some
      { version := readUInt32LE buf 0
        messageType := readUInt16LE buf 4
        payloadSize := readUInt32LE buf 8
        eventClass := parseGuid buf 12
        eventId := readUInt32LE buf 28
        severityRaw := readUInt8 buf 36
        severityLevel := if readUInt8 buf 36 ≤ 4 then readUInt8 buf 36 else 0
        severity :=
          if readUInt8 buf 36 ≤ 4 then
            (SEVERITY_STR (readUInt8 buf 36)).getD
              ("Unknown(" ++ toString (readUInt8 buf 36) ++ ")")
          else "Verbose"
        eventKind := readUInt32LE buf 40
        isAlarm := decide (readUInt32LE buf 40 = 2)
        alarmState := if readUInt8 buf 52 = 1 then "Raised" else "Cleared"
        alarmStateValue := if readUInt8 buf 52 = 1 then 1 else 0
        timeRaised := parseFileTime buf 60
        timeCleared := parseFileTime buf 68
        timeConfirmed := parseFileTime buf 76
        sourceName :=
          (((if 128 < buf.length then findAsciiStrings buf 128 else []).get? 0).map
            Prod.snd).getD ""
        message :=
          (((if 128 < buf.length then findAsciiStrings buf 128 else []).get? 1).map
            Prod.snd).getD "" } := by
  unfold parseEventEntry
  rw [if_neg (by omega)]

theorem parseFileTime_none_iff (buf : List Nat) (off : Nat) (h : off + 8 ≤ buf.length) :
    parseFileTime buf off = none ↔ ∀ i, i < 8 → byteAt buf (off + i) = 0 := by
  rw [parseFileTime_of_le h]
  have hlow := readUInt32LE_eq_zero_iff buf off
  have hhigh := readUInt32LE_eq_zero_iff buf (off + 4)
  rw [show off + 4 + 1 = off + 5 by omega, show off + 4 + 2 = off + 6 by omega,
      show off + 4 + 3 = off + 7 by omega] at hhigh
  by_cases hc : readUInt32LE buf off = 0 ∧ readUInt32LE buf (off + 4) = 0
  · rw [if_pos hc]
    constructor
    · intro _ i hi
      have h1 := hlow.mp hc.1
      have h2 := hhigh.mp hc.2
      interval_cases i
      · simpa using h1.1
      · exact h1.2.1
      · exact h1.2.2.1
      · exact h1.2.2.2
      · exact h2.1
      · exact h2.2.1
      · exact h2.2.2.1
      · exact h2.2.2.2
    · intro _
      rfl
  · rw [if_neg hc]
    constructor
    · intro hfalse
      exact absurd hfalse (by simp)
    · intro hz
      exact absurd
        ⟨hlow.mpr ⟨by simpa using hz 0 (by omega), hz 1 (by omega), hz 2 (by omega),
            hz 3 (by omega)⟩,
          hhigh.mpr ⟨hz 4 (by omega), hz 5 (by omega), hz 6 (by omega), hz 7 (by omega)⟩⟩
        hc

/-! ## Claim theorems -/

/-- C3: every buffer of length at most 16 is treated as a heartbeat (no
decode attempted, nothing fanned out); every buffer of length 17 to 83
fails decoding (`TooShort`, no `ParsedEvent`) and nothing is fanned out;
a `ParsedEvent` is only ever produced from a buffer of at least 84
bytes. -/
theorem length_classification :
    (∀ m buf, buf.length ≤ 16 → onEventData m buf = ⟨false, none⟩) ∧
    (∀ m buf, 17 ≤ buf.length → buf.length ≤ 83 →
      parseEventEntry buf = none ∧ (onEventData m buf).fannedOut = none) ∧
    (∀ buf e, parseEventEntry buf = some e → 84 ≤ buf.length) ∧
    (∀ m buf e, (onEventData m buf).fannedOut = some e → 84 ≤ buf.length) := by
  refine ⟨?_, ?_, ?_, ?_⟩
  · intro m buf h
    unfold onEventData
    by_cases h0 : buf.length = 0
    · rw [if_pos h0]
    · rw [if_neg h0, if_pos h]
  · intro m buf h17 h83
    have hn : parseEventEntry buf = none := (parseEventEntry_none_iff buf).mpr (by omega)
    refine ⟨hn, ?_⟩
    unfold onEventData
    rw [if_neg (by omega), if_neg (by omega), hn]
  · intro buf e h
    exact parseEventEntry_length h
  · intro m buf e h
    by_cases h16 : buf.length ≤ 16
    · unfold onEventData at h
      by_cases h0 : buf.length = 0
      · rw [if_pos h0] at h
        exact absurd h (by simp)
      · rw [if_neg h0, if_pos h16] at h
        exact absurd h (by simp)
    · rcases hp : parseEventEntry buf with _ | entry
      · unfold onEventData at h
        rw [if_neg (by omega), if_neg h16, hp] at h
        exact absurd h (by simp)
      · exact parseEventEntry_length hp

/-- C4: for every buffer of length at least 84, the decode succeeds; if
the byte at offset 36 is in [0,4] the decoded `severityLevel` equals
that byte and the severity name is the corresponding element of
{Verbose, Info, Warning, Error, Critical}; for any other byte value the
decode still yields `severityLevel = 0` and severity name "Verbose". -/
theorem severity_mapping :
    ∀ buf : List Nat, 84 ≤ buf.length →
      (parseEventEntry buf).isSome = true ∧
      (readUInt8 buf 36 ≤ 4 →
        (parseEventEntry buf).map ParsedEvent.severityLevel = some (readUInt8 buf 36) ∧
        (parseEventEntry buf).map ParsedEvent.severity =
          some (["Verbose", "Info", "Warning", "Error", "Critical"].getD
            (readUInt8 buf 36) "")) ∧
      (4 < readUInt8 buf 36 →
        (parseEventEntry buf).map ParsedEvent.severityLevel = some 0 ∧
        (parseEventEntry buf).map ParsedEvent.severity = some "Verbose") := by
  intro buf h
  rw [parseEventEntry_of_le h]
  refine ⟨rfl, ?_, ?_⟩
  · intro hle
    have h5 : readUInt8 buf 36 = 0 ∨ readUInt8 buf 36 = 1 ∨ readUInt8 buf 36 = 2 ∨
        readUInt8 buf 36 = 3 ∨ readUInt8 buf 36 = 4 := by omega
    rcases h5 with h5 | h5 | h5 | h5 | h5 <;> rw [h5] <;> exact ⟨rfl, rfl⟩
  · intro hgt
    have hn : ¬ readUInt8 buf 36 ≤ 4 := by omega
    constructor <;> simp [hn]

/-- C5: `parseGuid` returns null (never throws) whenever fewer than 16
bytes are available from the offset, succeeds whenever 16 bytes are
available, and on the bytes 14 9f 0d 16 7e d9 62 44 af ad ea 4c d4 82
96 b4 at offset 0 yields "160d9f14-d97e-4462-afad-ea4cd48296b4". -/
theorem guid_decoding :
    (∀ buf off, buf.length < off + 16 → parseGuid buf off = none) ∧
    (∀ (buf : List Nat) (off : Nat), off + 16 ≤ buf.length →
      (parseGuid buf off).isSome = true) ∧
    parseGuid [0x14, 0x9f, 0x0d, 0x16, 0x7e, 0xd9, 0x62, 0x44,
        0xaf, 0xad, 0xea, 0x4c, 0xd4, 0x82, 0x96, 0xb4] 0 =
      some "160d9f14-d97e-4462-afad-ea4cd48296b4" := by
  refine ⟨?_, ?_, by decide⟩
  · intro buf off h
    unfold parseGuid
    rw [if_pos h]
  · intro buf off h
    unfold parseGuid
    rw [if_neg (by omega)]
    rfl

/-- C6: for every buffer of length at least 84, each of the three
timestamp fields of the decoded event is absent exactly when the
corresponding 8-byte field (at offset 60, 68 or 76) is all-zero, and a
non-all-zero field yields a timestamp value. -/
theorem timestamp_absence_sentinel :
    ∀ buf : List Nat, 84 ≤ buf.length →
      ((parseEventEntry buf).map ParsedEvent.timeRaised = some none ↔
        ∀ i, i < 8 → byteAt buf (60 + i) = 0) ∧
      ((parseEventEntry buf).map ParsedEvent.timeCleared = some none ↔
        ∀ i, i < 8 → byteAt buf (68 + i) = 0) ∧
      ((parseEventEntry buf).map ParsedEvent.timeConfirmed = some none ↔
        ∀ i, i < 8 → byteAt buf (76 + i) = 0) ∧
      ((¬ ∀ i, i < 8 → byteAt buf (60 + i) = 0) →
        ∃ t, (parseEventEntry buf).map ParsedEvent.timeRaised = some (some t)) ∧
      ((¬ ∀ i, i < 8 → byteAt buf (68 + i) = 0) →
        ∃ t, (parseEventEntry buf).map ParsedEvent.timeCleared = some (some t)) ∧
      ((¬ ∀ i, i < 8 → byteAt buf (76 + i) = 0) →
        ∃ t, (parseEventEntry buf).map ParsedEvent.timeConfirmed = some (some t)) := by
  intro buf h
  have hr := parseFileTime_none_iff buf 60 (by omega)
  have hc := parseFileTime_none_iff buf 68 (by omega)
  have hf := parseFileTime_none_iff buf 76 (by omega)
  rw [parseEventEntry_of_le h]
  refine ⟨?_, ?_, ?_, ?_, ?_, ?_⟩
  · simpa using hr
  · simpa using hc
  · simpa using hf
  · intro hnz
    rcases hx : parseFileTime buf 60 with _ | t
    · exact absurd (hr.mp hx) hnz
    · exact ⟨t, by rw [← hx]; rfl⟩
  · intro hnz
    rcases hx : parseFileTime buf 68 with _ | t
    · exact absurd (hc.mp hx) hnz
    · exact ⟨t, by rw [← hx]; rfl⟩
  · intro hnz
    rcases hx : parseFileTime buf 76 with _ | t
    · exact absurd (hf.mp hx) hnz
    · exact ⟨t, by rw [← hx]; rfl⟩

/-- C7: for every decoded buffer (length at least 84), `isAlarm` is true
exactly when the 32-bit little-endian field at offset 40 equals 2, and
`alarmState` is "Raised" exactly when the byte at offset 52 equals 1,
every other byte value yielding "Cleared". -/
theorem alarm_derivation :
    ∀ buf : List Nat, 84 ≤ buf.length →
      ((parseEventEntry buf).map ParsedEvent.isAlarm = some true ↔
        readUInt32LE buf 40 = 2) ∧
      ((parseEventEntry buf).map ParsedEvent.alarmState = some "Raised" ↔
        readUInt8 buf 52 = 1) ∧
      (readUInt8 buf 52 ≠ 1 →
        (parseEventEntry buf).map ParsedEvent.alarmState = some "Cleared") := by
  intro buf h
  rw [parseEventEntry_of_le h]
  refine ⟨by simp, ?_, ?_⟩
  · by_cases hf : readUInt8 buf 52 = 1 <;> simp [hf]
  · intro hf
    simp [hf]

/-- C10: an output message is sent exactly for decoded events whose
`severityLevel` is at least the configured minimum severity: every
fanned-out event is a decoded event meeting the threshold, with the
default threshold 0 every decoded event is forwarded, the
decode/heartbeat behaviour is independent of the threshold, and the
fanned-out stream is a subset of the decoded events. -/
theorem severity_filter_fan_out :
    (∀ m buf e, (onEventData m buf).fannedOut = some e →
      parseEventEntry buf = some e ∧ m ≤ e.severityLevel) ∧
    (∀ buf e, parseEventEntry buf = some e → (onEventData 0 buf).fannedOut = some e) ∧
    (∀ m buf, (onEventData m buf).decodeAttempted = (onEventData 0 buf).decodeAttempted) ∧
    (∀ m buf e, (onEventData m buf).fannedOut = some e →
      (onEventData 0 buf).fannedOut = some e) := by
  have main : ∀ m buf e, (onEventData m buf).fannedOut = some e →
      parseEventEntry buf = some e ∧ m ≤ e.severityLevel := by
    intro m buf e h
    unfold onEventData at h
    by_cases h0 : buf.length = 0
    · rw [if_pos h0] at h
      exact absurd h (by simp)
    · rw [if_neg h0] at h
      by_cases h16 : buf.length ≤ 16
      · rw [if_pos h16] at h
        exact absurd h (by simp)
      · rw [if_neg h16] at h
        rcases hp : parseEventEntry buf with _ | entry
        · rw [hp] at h
          exact absurd h (by simp)
        · rw [hp] at h
          simp only [sendEvent] at h
          by_cases hs : entry.severityLevel < m
          · simp only [if_pos hs] at h
            exact absurd h (by simp)
          · simp only [if_neg hs, Option.some.injEq] at h
            subst h
            exact ⟨rfl, by omega⟩
  have fwd : ∀ buf e, parseEventEntry buf = some e →
      (onEventData 0 buf).fannedOut = some e := by
    intro buf e hp
    have hlen := parseEventEntry_length hp
    unfold onEventData
    rw [if_neg (by omega), if_neg (by omega), hp]
    simp [sendEvent]
  refine ⟨main, fwd, ?_, ?_⟩
  · intro m buf
    unfold onEventData
    by_cases h0 : buf.length = 0
    · simp only [if_pos h0]
    · by_cases h16 : buf.length ≤ 16
      · simp only [if_neg h0, if_pos h16]
      · simp only [if_neg h0, if_neg h16]
        rcases hp : parseEventEntry buf with _ | entry <;> rfl
  · intro m buf e h
    exact fwd buf e (main m buf e h).1

theorem addSubscriberStep_of_subscribing {s : BrokerState} (h : s.subscribing = true) :
    addSubscriberStep s = { s with subscriberCount := s.subscriberCount + 1 } := by
  simp [addSubscriberStep, h, ite_self]

theorem addSubscriberStep_iterate_of_subscribing :
    ∀ (k : Nat) (s : BrokerState), s.subscribing = true →
      (addSubscriberStep^[k] s).subscribeRawCalls = s.subscribeRawCalls ∧
      (addSubscriberStep^[k] s).subscribing = true := by
  intro k
  induction k with
  | zero => exact fun s h => ⟨rfl, h⟩
  | succ n ih =>
    intro s h
    rw [Function.iterate_succ_apply, addSubscriberStep_of_subscribing h]
    exact ih { s with subscriberCount := s.subscriberCount + 1 } h

/-- C1: starting from a state with no subscription, no in-flight
subscribe and a connected session, any number n ≥ 1 of `addSubscriber`
calls interleaved at the asynchronous suspension points (each modelled
by its atomic synchronous segment) issues exactly one `subscribeRaw`
transport call; and every call arriving while a subscribe is in flight
leaves the in-flight marker and the call count untouched (it awaits the
same pending operation), only incrementing the subscriber count. -/
theorem single_flight_subscribe :
    (∀ (s0 : BrokerState) (n : Nat), s0.subscription = false → s0.subscribing = false →
      s0.connected = true → 1 ≤ n →
      (addSubscriberStep^[n] s0).subscribeRawCalls = s0.subscribeRawCalls + 1) ∧
    (∀ s : BrokerState, s.subscribing = true →
      addSubscriberStep s = { s with subscriberCount := s.subscriberCount + 1 }) := by
  refine ⟨?_, fun s h => addSubscriberStep_of_subscribing h⟩
  intro s0 n h1 h2 h3 hn
  obtain ⟨m, rfl⟩ : ∃ m, n = m + 1 := ⟨n - 1, by omega⟩
  rw [Function.iterate_succ_apply]
  have hfirst : addSubscriberStep s0 =
      { s0 with
          subscriberCount := s0.subscriberCount + 1
          subscribing := true
          subscribeRawCalls := s0.subscribeRawCalls + 1 } := by
    simp [addSubscriberStep, h1, h2, h3]
  rw [hfirst]
  exact (addSubscriberStep_iterate_of_subscribing m _ rfl).1

/-- C8: every `removeSubscriber` call sets the subscriber count to
`max(0, count - 1)` (so the count never becomes negative); when the
count reaches 0 while a subscription exists, the transport unsubscribe
is invoked and the local handle is cleared even when the transport call
fails — the failure is only logged (second component), never propagated
(the step is total and independent of the failure). -/
theorem remove_subscriber_teardown :
    ∀ (s : BrokerState) (transportFails : Bool),
      ((removeSubscriberStep transportFails s).1.subscriberCount =
        max 0 (s.subscriberCount - 1)) ∧
      (0 ≤ (removeSubscriberStep transportFails s).1.subscriberCount) ∧
      (max 0 (s.subscriberCount - 1) = 0 → s.subscription = true →
        (removeSubscriberStep transportFails s).1.unsubscribeCalls =
          s.unsubscribeCalls + 1 ∧
        (removeSubscriberStep transportFails s).1.subscription = false ∧
        (removeSubscriberStep transportFails s).2 = transportFails) := by
  intro s tf
  have key : removeSubscriberStep tf s =
      if max 0 (s.subscriberCount - 1) = 0 ∧ s.subscription = true then
        ({ s with
            subscriberCount := max 0 (s.subscriberCount - 1)
            unsubscribeCalls := s.unsubscribeCalls + 1
            subscription := false }, tf)
      else ({ s with subscriberCount := max 0 (s.subscriberCount - 1) }, false) := by
    simp only [removeSubscriberStep, unsubscribeStep]
    split
    · rename_i hcond
      rw [if_neg (by simp [hcond.2])]
    · rfl
  by_cases hc : max 0 (s.subscriberCount - 1) = 0 ∧ s.subscription = true
  · rw [key, if_pos hc]
    exact ⟨rfl, le_max_left 0 _, fun _ _ => ⟨rfl, rfl, rfl⟩⟩
  · rw [key, if_neg hc]
    exact ⟨rfl, le_max_left 0 _, fun h1 h2 => absurd ⟨h1, h2⟩ hc⟩

theorem emittedCount_from_sent :
    ∀ (l : List Bool) (prev : Bool),
      emittedCount ⟨prev, true⟩ l = adjacentChanges (prev :: l) := by
  intro l
  induction l with
  | nil => intro prev; rfl
  | cons sig rest ih =>
    intro prev
    simp [emittedCount, onConnectedStateChange, adjacentChanges, ih]

/-- C9: once the first notification has been sent, a signal emits the
state-change notification exactly when it differs from the recorded
state (repeated identical signals re-emit nothing); over any nonempty
signal sequence from the initial state, the number of emitted
notifications is exactly one (the flag-guarded first transition) plus
the number of actual state changes in the sequence. -/
theorem connected_signal_idempotence :
    (∀ (s : ConnFlags) (sig : Bool), s.firstSent = true →
      ((onConnectedStateChange sig s).2 = true ↔ sig ≠ s.connected)) ∧
    (∀ (sig : Bool) (rest : List Bool),
      emittedCount initialConnFlags (sig :: rest) = 1 + adjacentChanges (sig :: rest)) := by
  constructor
  · intro s sig h
    simp [onConnectedStateChange, h]
    cases hc : s.connected <;> cases hsig : sig <;> simp
  · intro sig rest
    simp [emittedCount, onConnectedStateChange, initialConnFlags, emittedCount_from_sent]

/-- C2 (code bug): the failing 8-byte input below encodes the 64-bit
tick value 4700000000000150000 = 10000 · 470000000000015 (low word
743983600, high word 1094304025).  The exact value of
(high · 2^32 + low) / 10000 − 11644473600000 is the integer
458355526400015, but the source's double-precision evaluation (modelled
bit-exactly by `parseFileTime`) yields a Date at 458355526400014 ms —
one millisecond off, so the conversion is not exact over the full
64-bit tick range. -/
theorem parseFileTime_precision_loss :
    parseFileTime [240, 73, 88, 44, 25, 193, 57, 65] 0 = some 458355526400014 ∧
    readUInt32LE [240, 73, 88, 44, 25, 193, 57, 65] 0 = 743983600 ∧
    readUInt32LE [240, 73, 88, 44, 25, 193, 57, 65] 4 = 1094304025 ∧
    (1094304025 * 4294967296 + 743983600 : ℤ) = 10000 * 470000000000015 ∧
    (10000 * 470000000000015 / 10000 - 11644473600000 : ℤ) = 458355526400015 ∧
    (458355526400014 : ℤ) ≠ 458355526400015 :=
  ⟨by decide, by decide, by decide, by decide, by decide, by decide⟩

/-! ## Witnesses -/

theorem length_classification_witness :
    onEventData 0 [1, 2, 3] = ⟨false, none⟩ ∧
    parseEventEntry (List.replicate 40 7) = none :=
  ⟨length_classification.1 0 [1, 2, 3] (by decide),
    (length_classification.2.1 0 (List.replicate 40 7) (by decide) (by decide)).1⟩

theorem severity_mapping_witness :
    (parseEventEntry (List.replicate 84 0)).map ParsedEvent.severityLevel = some 0 ∧
    (parseEventEntry (List.replicate 36 0 ++ 99 :: List.replicate 47 0)).map
      ParsedEvent.severity = some "Verbose" :=
  ⟨((severity_mapping (List.replicate 84 0) (by decide)).2.1 (by decide)).1,
    ((severity_mapping (List.replicate 36 0 ++ 99 :: List.replicate 47 0)
      (by decide)).2.2 (by decide)).2⟩

theorem guid_decoding_witness :
    parseGuid [] 0 = none ∧
    (parseGuid [0x14, 0x9f, 0x0d, 0x16, 0x7e, 0xd9, 0x62, 0x44, 0xaf, 0xad, 0xea, 0x4c,
      0xd4, 0x82, 0x96, 0xb4] 0).isSome = true :=
  ⟨guid_decoding.1 [] 0 (by decide), guid_decoding.2.1 _ 0 (by decide)⟩

theorem timestamp_absence_sentinel_witness :
    (parseEventEntry (List.replicate 84 0)).map ParsedEvent.timeRaised = some none :=
  (timestamp_absence_sentinel (List.replicate 84 0) (by decide)).1.mpr (by decide)

theorem alarm_derivation_witness :
    (parseEventEntry (List.replicate 40 0 ++ 2 ::
        (List.replicate 11 0 ++ 1 :: List.replicate 31 0))).map
      ParsedEvent.isAlarm = some true :=
  (alarm_derivation _ (by decide)).1.mpr (by decide)

theorem severity_filter_fan_out_witness :
    (onEventData 0 (List.replicate 84 0)).fannedOut = some sampleEvent :=
  severity_filter_fan_out.2.1 (List.replicate 84 0) sampleEvent (by decide)

theorem single_flight_subscribe_witness :
    (addSubscriberStep^[3] ⟨0, false, false, true, 0, 0⟩).subscribeRawCalls = 1 :=
  single_flight_subscribe.1 ⟨0, false, false, true, 0, 0⟩ 3 rfl rfl rfl (by decide)

theorem remove_subscriber_teardown_witness :
    (removeSubscriberStep true ⟨1, true, false, true, 0, 0⟩).1.subscription = false ∧
    (removeSubscriberStep true ⟨1, true, false, true, 0, 0⟩).1.unsubscribeCalls = 1 :=
  ⟨((remove_subscriber_teardown ⟨1, true, false, true, 0, 0⟩ true).2.2
      (by decide) rfl).2.1,
    ((remove_subscriber_teardown ⟨1, true, false, true, 0, 0⟩ true).2.2
      (by decide) rfl).1⟩

theorem connected_signal_idempotence_witness :
    (onConnectedStateChange true ⟨false, true⟩).2 = true :=
  (connected_signal_idempotence.1 ⟨false, true⟩ true rfl).mpr (by decide)

end AdsEventLogger
